import Mathlib

/-!
Verification of the Content Acquisition & Cross-Reference Engine of the
news-checker repository (`src/news_analyzer.py`), as a shallow embedding.

Python strings are modelled as Lean `String`; all character-level helpers
(`len`, `lower`, `strip`, slicing, substring membership, `isupper`) are
re-implemented structurally over `String.data` so that every definition
evaluates by kernel reduction.  The model covers ASCII text (Python's
`\w`, `lower()` and `isupper()` are Unicode-aware; the inputs exercised
here are ASCII).  Network effects (HTTP responses, parsed RSS feeds,
selected anchors) are passed in as explicit oracle arguments, one value
per URL/selector, matching the code's per-call determinism assumption.
Python dictionaries with optional keys are modelled as structures with
`Option` fields whose `getD` defaults mirror each `dict.get` call site.
-/

/-- Length of a Python string (number of characters). -/
def pyLen (s : String) : Nat := s.data.length

/-- Python `str.lower()` (ASCII model). -/
def pyLower (s : String) : String := String.mk (s.data.map Char.toLower)

/-- Python slicing `s[:n]`. -/
def pySliceStr (s : String) (n : Nat) : String := String.mk (s.data.take n)

/-- Python whitespace characters recognised by `str.strip()`. -/
def pyWhite (c : Char) : Bool :=
  c == ' ' || c == '\t' || c == '\n' || c == '\r' || c == '\x0b' || c == '\x0c'

/-- Python `str.strip()`. -/
def pyStrip (s : String) : String :=
  String.mk (((s.data.dropWhile pyWhite).reverse.dropWhile pyWhite).reverse)

/-- Whether `needle` occurs at the head of `hay`. -/
def leads : List Char → List Char → Bool
  | [], _ => true
  | _ :: _, [] => false
  | a :: as, b :: bs => a == b && leads as bs

/-- Whether `needle` occurs anywhere inside `hay`. -/
def listHas : List Char → List Char → Bool
  | [], needle => needle.isEmpty
  | h :: t, needle => leads needle (h :: t) || listHas t needle

/-- Python substring test `needle in hay`. -/
def pyIn (needle hay : String) : Bool := listHas hay.data needle.data

/-- Python `s.startswith(p)`. -/
def pyStartsWith (s p : String) : Bool := leads p.data s.data

/-- Python `a or b` on strings (first truthy operand). -/
def pyOr (a b : String) : String := if a ≠ "" then a else b

/-- Python `str.isupper()` (ASCII model): at least one cased character and
no lowercase character. -/
def pyIsUpper (s : String) : Bool :=
  s.data.any (fun c => c.isAlpha) && s.data.all (fun c => !(c.isLower))

/-- Helper for splitting a character list on a separator. -/
def splitCharAux (sep : Char) : List Char → List Char → List (List Char)
  | [], cur => [cur.reverse]
  | c :: cs, cur =>
    if c == sep then cur.reverse :: splitCharAux sep cs []
    else splitCharAux sep cs (c :: cur)

/-- Python `s.split(sep)` for a one-character separator. -/
def pySplitChar (sep : Char) (s : String) : List String :=
  (splitCharAux sep s.data []).map String.mk

/-- Python `"\n".join(lines)`. -/
def pyJoinLines (ls : List String) : String :=
  String.mk (List.intercalate ['\n'] (ls.map String.data))

/-- A character matched by the regex class `\w` (ASCII model). -/
def isWordChar (c : Char) : Bool := c.isAlphanum || c == '_'

/-- Helper collecting maximal runs of word characters. -/
def wordRunsAux : List Char → List Char → List String
  | [], cur => if cur.isEmpty then [] else [String.mk cur.reverse]
  | c :: cs, cur =>
    if isWordChar c then wordRunsAux cs (c :: cur)
    else if cur.isEmpty then wordRunsAux cs []
    else String.mk cur.reverse :: wordRunsAux cs []

/-- Maximal word-character runs of a string; `re.findall` of `\b\w+\b`. -/
def wordRuns (s : String) : List String := wordRunsAux s.data []

/-- `re.findall` of word tokens of length at least `n` (the code's
`\b\w\x7b4,\x7d\b` and `\b\w\x7b5,\x7d\b` patterns). -/
def wordTokens (n : Nat) (s : String) : List String :=
  (wordRuns s).filter (fun w => decide (n ≤ pyLen w))

/-- Helper deduplicating a list while keeping first occurrences. -/
def pySetAux : List String → List String → List String
  | [], _ => []
  | x :: xs, seen =>
    if seen.contains x then pySetAux xs seen else x :: pySetAux xs (x :: seen)

/-- A Python `set(...)` of strings, modelled as an order-preserving
deduplicated list (the claims settled here depend only on membership). -/
def pySet (l : List String) : List String := pySetAux l []

/-- The content cleanup in `fetch_article_content` (news_analyzer.py,
lines 705-714): strip each line, keep non-empty lines longer than 5
characters, then keep lines longer than 8 characters that are not short
all-caps navigation entries, and cap at 200 lines. -/
def cleanup_content (s : String) : String :=
  let lines := ((pySplitChar '\n' s).map pyStrip).filter
    (fun l => decide (l ≠ "" ∧ 5 < pyLen l))
  let filtered := lines.filter
    (fun l => decide (8 < pyLen l ∧ ¬(pyIsUpper l = true ∧ pyLen l < 30)))
  pyJoinLines (filtered.take 200)

/-- Modelled from the spec's words for the post-processing step (claim C9):
split into lines, drop exactly the lines of 5 or fewer characters, drop
all-caps lines shorter than 30 characters, cap at 200 lines. -/
def cleanup_claimed (s : String) : String :=
  let lines := ((pySplitChar '\n' s).map pyStrip).filter
    (fun l => decide (5 < pyLen l))
  let filtered := lines.filter
    (fun l => decide (¬(pyIsUpper l = true ∧ pyLen l < 30)))
  pyJoinLines (filtered.take 200)

/-- The amended description of the cleanup: lines of 8 or fewer characters
are dropped (the 5-character filter is subsumed), along with short
all-caps lines, and the output is capped at 200 lines. -/
def cleanup_amended (s : String) : String :=
  pyJoinLines ((((pySplitChar '\n' s).map pyStrip).filter
    (fun l => decide (8 < pyLen l ∧ ¬(pyIsUpper l = true ∧ pyLen l < 30)))).take 200)

/-- Claim C9, counterexample: the post-processing step does not drop
exactly the lines of 5 or fewer characters.  On the input
"abcdef\n..." the 6-character lowercase line "abcdef" is longer than 5
characters and is not an all-caps navigation line, yet the code drops it
(its second filter requires more than 8 characters), so the behaviour
described by the claim differs from the code's. -/
theorem claim_c9_counterexample :
    cleanup_content "abcdef\nthis line is long enough to stay." ≠
      cleanup_claimed "abcdef\nthis line is long enough to stay." := by
  decide

/-- Claim C9 (amended): for every extracted article body on the
direct-HTTP path, the post-processing step splits the text into lines,
strips them, drops the lines of 8 or fewer characters (which subsumes the
5-character filter), drops navigation-like lines (all-caps strings
shorter than 30 characters), and caps the output at 200 lines. -/
theorem claim_c9_theorem (s : String) :
    cleanup_content s = cleanup_amended s := by
  simp only [cleanup_content, cleanup_amended]
  rw [List.filter_filter]
  congr 2
  apply List.filter_congr
  intro a _
  by_cases h8 : 8 < pyLen a
  · have h5 : 5 < pyLen a := by omega
    have hne : a ≠ "" := by
      intro h
      subst h
      simp [pyLen] at h8
    by_cases hu : pyIsUpper a = true ∧ pyLen a < 30 <;> simp [h8, h5, hne, hu]
  · simp [h8]

/-- The uniform result shape produced by every fetch strategy
(`Dict[str, Any]` in the code); absent keys are `none`. -/
structure FetchResult where
  success : Bool
  title : Option String := none
  content : Option String := none
  url : Option String := none
  method : Option String := none
  error : Option String := none
  warning : Option String := none
  suggestion : Option String := none
  content_length : Option Nat := none
  status_code : Option Nat := none
deriving DecidableEq

/-- The fetch strategies of the chain (section 4.2 of the spec). -/
inductive Strategy where
  | newspaper3k
  | rss_feed
  | direct_http
  | selenium
  | playwright
deriving DecidableEq

/-- The downloaded/parsed state of a `newspaper.Article`, the external
library's output: its `title` and `text` attributes. -/
structure ArticleData where
  title : String
  text : String
deriving DecidableEq

/-- `fetch_with_newspaper3k` (news_analyzer.py, lines 87-113): succeed
when the library extracted truthy text whose stripped length exceeds 50;
`download` is `none` when the library is unavailable at that URL
(download/parse raised). -/
def fetch_with_newspaper3k (available : Bool) (download : Option ArticleData)
    (url : String) : FetchResult :=
  if available = false then
    { success := false, error := some "newspaper3k not installed" }
  else
    match download with
    | none => { success := false, error := some "newspaper3k failed to extract content" }
    | some a =>
      if a.text ≠ "" ∧ 50 < pyLen (pyStrip a.text) then
        { success := true, title := some (pyOr a.title "No title found"),
          content := some (pyStrip a.text), url := some url,
          method := some "newspaper3k" }
      else { success := false, error := some "newspaper3k failed to extract content" }

/-- One parsed RSS entry, with `dict.get` defaults mirrored by `getD`. -/
structure FeedEntry where
  link : Option String := none
  title : Option String := none
  summary : Option String := none
  description : Option String := none
  published : Option String := none
deriving DecidableEq

/-- Helper locating the first occurrence of `://` in a character list,
returning the scheme before it and the characters after it. -/
def splitSchemeAux : List Char → List Char → Option (List Char × List Char)
  | [], _ => none
  | c :: cs, acc =>
    if leads [':', '/', '/'] (c :: cs) then some (acc.reverse, cs.drop 2)
    else splitSchemeAux cs (c :: acc)

/-- Scheme-and-netloc of a URL: the code's `urlparse(url)` followed by
rebuilding `scheme://netloc` (netloc stops at `/`, `?` or `#`; a URL
with no scheme separator has empty scheme and netloc). -/
def baseUrl (url : String) : String :=
  match splitSchemeAux url.data [] with
  | none => "://"
  | some (scheme, rest) =>
    String.mk scheme ++ "://" ++
      String.mk (rest.takeWhile (fun c => !(c == '/' || c == '?' || c == '#')))

/-- The conventional feed paths probed by the code. -/
def rss_paths : List String := ["/feed", "/rss", "/feeds/all.rss", "/rss.xml", "/feed.xml"]

/-- The inner entry scan of `try_rss_feed`: first entry whose link
contains the article URL or is contained in it wins. -/
def rssMatchInList (url : String) : List FeedEntry → Option FetchResult
  | [] => none
  | e :: es =>
    if pyIn url (e.link.getD "") = true ∨ pyIn (e.link.getD "") url = true then
      some { success := true, title := some (e.title.getD "No title"),
             content := some (pyOr (e.summary.getD "") (e.description.getD "")),
             url := some url, method := some "rss_feed" }
    else rssMatchInList url es

/-- The path loop of `try_rss_feed`; `feeds` maps a feed URL to its
parsed entries (empty when parsing found nothing or raised). -/
def tryRssPaths (feeds : String → List FeedEntry) (base url : String) :
    List String → FetchResult
  | [] => { success := false, error := some "RSS feed not found or doesn't contain article" }
  | p :: ps =>
    if (feeds (base ++ p)).isEmpty = true then tryRssPaths feeds base url ps
    else
      match rssMatchInList url ((feeds (base ++ p)).take 10) with
      | some r => r
      | none => tryRssPaths feeds base url ps

/-- `try_rss_feed` (news_analyzer.py, lines 244-275). -/
def try_rss_feed (feeds : String → List FeedEntry) (url : String) : FetchResult :=
  tryRssPaths feeds (baseUrl url) url rss_paths

/-- A successful HTTP response as seen after the extraction cascade:
status code, resolved title, and the article content produced by the
selector/paragraph/div/body cascade (`none` when nothing matched). -/
structure HttpOk where
  status : Nat
  title : String
  extracted : Option String
deriving DecidableEq

/-- Outcome of `session.get` plus extraction, including the exception
classes handled by the code. -/
inductive HttpOutcome where
  | ok : HttpOk → HttpOutcome
  | timeout
  | connError
  | exn : String → HttpOutcome
deriving DecidableEq

/-- The 401/403 fallback loop: newspaper3k then RSS, returning the first
result reporting success, together with the strategies attempted. -/
def authFallback (np rss : FetchResult) : Option FetchResult × List Strategy :=
  if np.success = true then (some np, [Strategy.newspaper3k])
  else if rss.success = true then (some rss, [Strategy.newspaper3k, Strategy.rss_feed])
  else (none, [Strategy.newspaper3k, Strategy.rss_feed])

/-- The content-too-short fallback loop: newspaper3k then RSS, accepting
only success with truthy content longer than 50 characters. -/
def shortFallback (np rss : FetchResult) : Option FetchResult × List Strategy :=
  if np.success = true ∧ np.content.getD "" ≠ "" ∧ 50 < pyLen (np.content.getD "") then
    (some np, [Strategy.newspaper3k])
  else if rss.success = true ∧ rss.content.getD "" ≠ "" ∧ 50 < pyLen (rss.content.getD "") then
    (some rss, [Strategy.newspaper3k, Strategy.rss_feed])
  else (none, [Strategy.newspaper3k, Strategy.rss_feed])

/-- The cleanup used on the partial-extraction path (lines 686-689):
keep stripped lines longer than 10 characters, cap at 100 lines. -/
def partialCleanup (s : String) : String :=
  pyJoinLines ((((pySplitChar '\n' s).map pyStrip).filter
    (fun l => decide (l ≠ "" ∧ 10 < pyLen l))).take 100)

/-- The timeout error result. -/
def errTimeout (url : String) : FetchResult :=
  { success := false, url := some url,
    error := some "Request timed out. The website may be slow or unreachable." }

/-- The connection error result. -/
def errConn (url : String) : FetchResult :=
  { success := false, url := some url,
    error := some "Connection error. Please check your internet connection." }

/-- The generic exception result. -/
def errGeneric (msg url : String) : FetchResult :=
  { success := false, url := some url, error := some ("Error fetching article: " ++ msg) }

/-- The 401 error result. -/
def err401 (url : String) : FetchResult :=
  { success := false, url := some url,
    error := some "401 Forbidden: This website requires authentication or blocks automated access.",
    suggestion := some "Options: 1) Use browser automation (Selenium/Playwright), 2) Try newspaper3k library, 3) Check RSS feed, 4) Copy article content manually." }

/-- The 403 error result. -/
def err403 (url : String) : FetchResult :=
  { success := false, url := some url,
    error := some "403 Forbidden: Access denied. This website may block automated requests.",
    suggestion := some "This site blocks automated access. Options: 1) Use browser automation (Selenium/Playwright), 2) Try newspaper3k library, 3) Check for RSS feed, 4) Copy article content manually." }

/-- The 404 error result. -/
def err404 (url : String) : FetchResult :=
  { success := false, url := some url,
    error := some "404 Not Found: The article URL doesn't exist or has been removed." }

/-- The `raise_for_status` handler for other 4xx/5xx statuses (the
exception's text is environment-dependent; the status code is kept). -/
def errHttpStatus (status : Nat) (url : String) : FetchResult :=
  { success := false, url := some url, status_code := some status,
    error := some ("HTTP Error " ++ toString status) }

/-- The extraction-insufficient error result. -/
def errInsufficient (url : String) : FetchResult :=
  { success := false, url := some url,
    error := some "Could not extract sufficient content from the article. The page structure may not be supported.",
    suggestion := some "Try copying the article content manually, use browser automation (Selenium/Playwright), or use a different news source." }

/-- The success result of the partial-extraction path. -/
def partialExtractionResult (title c url : String) : FetchResult :=
  { success := true, title := some title, content := some (partialCleanup c),
    url := some url, content_length := some (pyLen (partialCleanup c)),
    method := some "requests (partial extraction)",
    warning := some "Content may be incomplete - consider manual paste for full article" }

/-- Core of the short-content branch, with the outcome of the optional
fallback loop passed in as `fb`. -/
def shortContentPathCore (fb : Option FetchResult × List Strategy) (oc : Option String)
    (title url : String) (tr : List Strategy) : Option FetchResult × List Strategy :=
  match fb.1 with
  | some res => (some res, tr ++ fb.2)
  | none =>
    match oc with
    | some c =>
      if c ≠ "" ∧ 50 ≤ pyLen c then (some (partialExtractionResult title c url), tr ++ fb.2)
      else (some (errInsufficient url), tr ++ fb.2)
    | none => (some (errInsufficient url), tr ++ fb.2)

/-- The branch taken when the cascade produced no content or fewer than
80 characters (lines 665-703): optional fallbacks, then the
partial-extraction return, then the extraction-insufficient error. -/
def shortContentPath (np rss : FetchResult) (oc : Option String) (title url : String)
    (uf : Bool) (tr : List Strategy) : Option FetchResult × List Strategy :=
  shortContentPathCore (if uf = true then shortFallback np rss else (none, [])) oc title url tr

/-- The full-extraction success result (`method="requests"`). -/
def requestsResult (title cc url : String) : FetchResult :=
  { success := true, title := some title, content := some cc, url := some url,
    content_length := some (pyLen cc), method := some "requests" }

/-- The post-cleanup partial success result (`method="requests (partial)"`). -/
def requestsPartialResult (title cc url : String) : FetchResult :=
  { success := true, title := some title, content := some cc, url := some url,
    content_length := some (pyLen cc), method := some "requests (partial)",
    warning := some "Content may be incomplete" }

/-- Core of the post-cleanup too-short branch, with the outcome of the
optional fallback loop passed in as `fb`; `cc` is the cleaned content.
The final `none` models Python falling off the end of the function. -/
def longFallbackPart (fb : Option FetchResult × List Strategy) (cc title url : String)
    (tr : List Strategy) : Option FetchResult × List Strategy :=
  match fb.1 with
  | some res => (some res, tr ++ fb.2)
  | none =>
    if cc ≠ "" ∧ 50 ≤ pyLen cc then (some (requestsPartialResult title cc url), tr ++ fb.2)
    else (none, tr ++ fb.2)

/-- The branch taken when the cascade produced at least 80 characters
(lines 705-752): cleanup, then success, fallbacks, partial success, or
the code's implicit `None` return. -/
def longContentPath (np rss : FetchResult) (c title url : String) (uf : Bool)
    (tr : List Strategy) : Option FetchResult × List Strategy :=
  if 80 ≤ pyLen (cleanup_content c) then
    (some (requestsResult title (cleanup_content c) url), tr)
  else
    longFallbackPart (if uf = true then shortFallback np rss else (none, []))
      (cleanup_content c) title url tr

/-- The content phase dispatcher: Python's
`if not article_content or len(article_content) < 80`. -/
def contentPhase (np rss : FetchResult) (r : HttpOk) (url : String) (uf : Bool)
    (tr : List Strategy) : Option FetchResult × List Strategy :=
  match r.extracted with
  | none => shortContentPath np rss none r.title url uf tr
  | some c =>
    if pyLen c < 80 then shortContentPath np rss (some c) r.title url uf tr
    else longContentPath np rss c r.title url uf tr

/-- The direct-HTTP part of `fetch_article_content`: status handling
(401, 403, 404, `raise_for_status`), then the content phase. -/
def httpPhase (np rss : FetchResult) (http : HttpOutcome) (url : String) (uf : Bool)
    (tr : List Strategy) : Option FetchResult × List Strategy :=
  match http with
  | .timeout => (some (errTimeout url), tr)
  | .connError => (some (errConn url), tr)
  | .exn msg => (some (errGeneric msg url), tr)
  | .ok r =>
    if r.status = 401 then
      if uf = true then
        match (authFallback np rss).1 with
        | some res => (some res, tr ++ (authFallback np rss).2)
        | none => (some (err401 url), tr ++ (authFallback np rss).2)
      else (some (err401 url), tr)
    else if r.status = 403 then
      if uf = true then
        match (authFallback np rss).1 with
        | some res => (some res, tr ++ (authFallback np rss).2)
        | none => (some (err403 url), tr ++ (authFallback np rss).2)
      else (some (err403 url), tr)
    else if r.status = 404 then (some (err404 url), tr)
    else if 400 ≤ r.status then (some (errHttpStatus r.status url), tr)
    else contentPhase np rss r url uf tr

/-- `fetch_article_content` (news_analyzer.py, lines 477-777), with the
two lazily-invocable strategies passed as the values they would return
(`np` from `fetch_with_newspaper3k`, `rss` from `try_rss_feed`) and the
HTTP layer as an oracle.  Returns the result (`none` models Python's
implicit `return None` path) together with the ordered list of
strategies attempted. -/
def fetch_article_content (np rss : FetchResult) (http : HttpOutcome) (url : String)
    (uf : Bool) : Option FetchResult × List Strategy :=
  if uf = true ∧ np.success = true ∧ 100 < pyLen (np.content.getD "") then
    (some np, [Strategy.newspaper3k])
  else
    httpPhase np rss http url uf
      ((if uf = true then [Strategy.newspaper3k] else []) ++ [Strategy.direct_http])

theorem shortContentPath_trace_noFallbacks (np rss : FetchResult) (oc : Option String)
    (title url : String) (tr : List Strategy) :
    (shortContentPath np rss oc title url false tr).2 = tr := by
  cases oc
  · simp [shortContentPath, shortContentPathCore]
  · simp [shortContentPath, shortContentPathCore]
    split <;> rfl

theorem longContentPath_trace_noFallbacks (np rss : FetchResult) (c title url : String)
    (tr : List Strategy) :
    (longContentPath np rss c title url false tr).2 = tr := by
  simp [longContentPath, longFallbackPart]
  split
  · rfl
  · split <;> rfl

/-- Claim C5: when fallbacks are disabled, only the direct-HTTP strategy
is attempted; newspaper3k, RSS, selenium and playwright are never
invoked, on the 401/403 paths and the content-too-short paths included:
the attempted-strategy trace is exactly `[direct_http]` for every HTTP
outcome and every value of the other strategies. -/
theorem claim_c5_theorem (np rss : FetchResult) (http : HttpOutcome) (url : String) :
    (fetch_article_content np rss http url false).2 = [Strategy.direct_http] := by
  simp only [fetch_article_content]
  rw [if_neg (by simp)]
  simp only [Bool.false_eq_true, if_false, List.nil_append]
  cases http with
  | timeout => rfl
  | connError => rfl
  | exn m => rfl
  | ok r =>
    simp only [httpPhase, Bool.false_eq_true, if_false]
    by_cases h1 : r.status = 401
    · simp [h1]
    by_cases h3 : r.status = 403
    · simp [h1, h3]
    by_cases h4 : r.status = 404
    · simp [h1, h3, h4]
    by_cases h4xx : 400 ≤ r.status
    · simp [h1, h3, h4, h4xx]
    simp only [h1, h3, h4, h4xx, if_false, contentPhase]
    split
    · exact shortContentPath_trace_noFallbacks ..
    · split
      · exact shortContentPath_trace_noFallbacks ..
      · exact longContentPath_trace_noFallbacks ..

/-- Claim C2: with `use_fallbacks=true` the newspaper3k (article
extraction library) strategy is attempted first, and when it reports
success with content longer than 100 characters its result is returned
unchanged and no other strategy is attempted (the trace is exactly
`[newspaper3k]`). -/
theorem claim_c2_theorem (np rss : FetchResult) (http : HttpOutcome) (url : String)
    (hs : np.success = true) (hl : 100 < pyLen (np.content.getD "")) :
    fetch_article_content np rss http url true = (some np, [Strategy.newspaper3k]) := by
  simp [fetch_article_content, hs, hl]

/-- Claim C4: on an HTTP 403 with fallbacks enabled, when the
newspaper3k and RSS strategies both fail, the chain attempts both of
them (the trace records newspaper3k and the RSS lookup after the direct
attempt) and the final result is `success=false` with an error string
containing "403". -/
theorem claim_c4_theorem (np rss : FetchResult) (r : HttpOk) (url : String)
    (hst : r.status = 403) (hnp : np.success = false) (hrss : rss.success = false) :
    (fetch_article_content np rss (.ok r) url true).1 = some (err403 url) ∧
    (err403 url).success = false ∧
    pyIn "403" ((err403 url).error.getD "") = true ∧
    (fetch_article_content np rss (.ok r) url true).2 =
      [Strategy.newspaper3k, Strategy.direct_http, Strategy.newspaper3k, Strategy.rss_feed] := by
  have hfb : authFallback np rss = (none, [Strategy.newspaper3k, Strategy.rss_feed]) := by
    simp [authFallback, hnp, hrss]
  refine ⟨?_, rfl, ?_, ?_⟩
  · simp [fetch_article_content, httpPhase, hst, hnp, hfb]
  · show pyIn "403" "403 Forbidden: Access denied. This website may block automated requests." = true
    decide
  · simp [fetch_article_content, httpPhase, hst, hnp, hfb]

theorem fetch_with_newspaper3k_success_len (a : Bool) (d : Option ArticleData) (url : String)
    (h : (fetch_with_newspaper3k a d url).success = true) :
    50 < pyLen ((fetch_with_newspaper3k a d url).content.getD "") := by
  by_cases ha : a = false
  · rw [fetch_with_newspaper3k.eq_def, if_pos ha] at h
    exact absurd h (by simp)
  · cases d with
    | none =>
      rw [fetch_with_newspaper3k.eq_def, if_neg ha] at h
      exact absurd h (by simp)
    | some ad =>
      by_cases hc : ad.text ≠ "" ∧ 50 < pyLen (pyStrip ad.text)
      · have he : fetch_with_newspaper3k a (some ad) url =
            { success := true, title := some (pyOr ad.title "No title found"),
              content := some (pyStrip ad.text), url := some url,
              method := some "newspaper3k" } := by
          rw [fetch_with_newspaper3k.eq_def, if_neg ha]
          exact if_pos hc
        rw [he]
        exact hc.2
      · have he : fetch_with_newspaper3k a (some ad) url =
            { success := false, error := some "newspaper3k failed to extract content" } := by
          rw [fetch_with_newspaper3k.eq_def, if_neg ha]
          exact if_neg hc
        rw [he] at h
        exact absurd h (by simp)

theorem rssMatchInList_shape (url : String) (es : List FeedEntry) (r : FetchResult)
    (h : rssMatchInList url es = some r) : r.method = some "rss_feed" := by
  induction es with
  | nil => simp [rssMatchInList] at h
  | cons e es ih =>
    unfold rssMatchInList at h
    split at h
    · injection h with h2
      subst h2
      rfl
    · exact ih h

theorem tryRssPaths_success_method (feeds : String → List FeedEntry) (base url : String)
    (ps : List String) (h : (tryRssPaths feeds base url ps).success = true) :
    (tryRssPaths feeds base url ps).method = some "rss_feed" := by
  induction ps with
  | nil => simp [tryRssPaths] at h
  | cons p ps ih =>
    unfold tryRssPaths at h ⊢
    by_cases he : (feeds (base ++ p)).isEmpty = true
    · rw [if_pos he] at h ⊢
      exact ih h
    · rw [if_neg he] at h ⊢
      rcases hm : rssMatchInList url ((feeds (base ++ p)).take 10) with _ | r
      · rw [hm] at h
        exact ih h
      · rw [hm] at h
        exact rssMatchInList_shape url _ r hm

theorem try_rss_feed_success_method (feeds : String → List FeedEntry) (url : String)
    (h : (try_rss_feed feeds url).success = true) :
    (try_rss_feed feeds url).method = some "rss_feed" :=
  tryRssPaths_success_method feeds (baseUrl url) url rss_paths h

theorem shortFallback_bound (np rss res : FetchResult)
    (h : (shortFallback np rss).1 = some res) :
    50 < pyLen (res.content.getD "") := by
  unfold shortFallback at h
  by_cases h1 : np.success = true ∧ np.content.getD "" ≠ "" ∧ 50 < pyLen (np.content.getD "")
  · rw [if_pos h1] at h
    injection h with h2
    subst h2
    exact h1.2.2
  · rw [if_neg h1] at h
    by_cases h2 : rss.success = true ∧ rss.content.getD "" ≠ "" ∧ 50 < pyLen (rss.content.getD "")
    · rw [if_pos h2] at h
      injection h with h3
      subst h3
      exact h2.2.2
    · rw [if_neg h2] at h
      exact absurd h (by simp)

theorem authFallback_cases (np rss res : FetchResult)
    (h : (authFallback np rss).1 = some res) :
    (res = np ∧ np.success = true) ∨ (res = rss ∧ rss.success = true) := by
  unfold authFallback at h
  by_cases h1 : np.success = true
  · rw [if_pos h1] at h
    injection h with h2
    exact Or.inl ⟨h2.symm, h1⟩
  · rw [if_neg h1] at h
    by_cases h2 : rss.success = true
    · rw [if_pos h2] at h
      injection h with h3
      exact Or.inr ⟨h3.symm, h2⟩
    · rw [if_neg h2] at h
      exact absurd h (by simp)


theorem shortContentPathCore_bound (fb : Option FetchResult × List Strategy)
    (oc : Option String) (title url : String) (tr : List Strategy) (fr : FetchResult)
    (hfb : ∀ res, fb.1 = some res → 50 < pyLen (res.content.getD ""))
    (h : (shortContentPathCore fb oc title url tr).1 = some fr)
    (hs : fr.success = true)
    (hm2 : fr.method ≠ some "requests (partial extraction)") :
    50 < pyLen (fr.content.getD "") := by
  obtain ⟨fb1, fb2⟩ := fb
  cases fb1 with
  | some res =>
    simp only [shortContentPathCore] at h
    injection h with h2
    subst h2
    exact hfb _ rfl
  | none =>
    simp only [shortContentPathCore] at h
    split at h
    · split at h
      · injection h with h2
        exact absurd (congrArg FetchResult.method h2.symm) hm2
      · injection h with h2
        rw [← h2] at hs
        exact absurd hs (by simp [errInsufficient])
    · injection h with h2
      rw [← h2] at hs
      exact absurd hs (by simp [errInsufficient])

theorem shortContentPath_bound (np rss : FetchResult) (oc : Option String)
    (title url : String) (uf : Bool) (tr : List Strategy) (fr : FetchResult)
    (h : (shortContentPath np rss oc title url uf tr).1 = some fr)
    (hs : fr.success = true)
    (hm2 : fr.method ≠ some "requests (partial extraction)") :
    50 < pyLen (fr.content.getD "") := by
  refine shortContentPathCore_bound _ oc title url tr fr ?_ h hs hm2
  intro res hres
  by_cases huf : uf = true
  · rw [if_pos huf] at hres
    exact shortFallback_bound np rss res hres
  · rw [if_neg huf] at hres
    exact absurd hres (by simp)

theorem longFallbackPart_bound (fb : Option FetchResult × List Strategy)
    (cc title url : String) (tr : List Strategy) (fr : FetchResult)
    (hfb : ∀ res, fb.1 = some res → 50 < pyLen (res.content.getD ""))
    (h : (longFallbackPart fb cc title url tr).1 = some fr) :
    50 ≤ pyLen (fr.content.getD "") := by
  obtain ⟨fb1, fb2⟩ := fb
  cases fb1 with
  | some res =>
    simp only [longFallbackPart] at h
    injection h with h2
    subst h2
    exact Nat.le_of_lt (hfb _ rfl)
  | none =>
    simp only [longFallbackPart] at h
    split at h
    next hc =>
      injection h with h2
      rw [← h2]
      simpa [requestsPartialResult] using hc.2
    · exact absurd h (by simp)

theorem longContentPath_bound (np rss : FetchResult) (c title url : String) (uf : Bool)
    (tr : List Strategy) (fr : FetchResult)
    (h : (longContentPath np rss c title url uf tr).1 = some fr) :
    50 ≤ pyLen (fr.content.getD "") := by
  unfold longContentPath at h
  split at h
  next h80 =>
    injection h with h2
    rw [← h2]
    simpa [requestsResult] using Nat.le_trans (by norm_num) h80
  next =>
    refine longFallbackPart_bound _ _ title url tr fr ?_ h
    intro res hres
    by_cases huf : uf = true
    · rw [if_pos huf] at hres
      exact shortFallback_bound np rss res hres
    · rw [if_neg huf] at hres
      exact absurd hres (by simp)

theorem httpPhase_bound (np rss : FetchResult) (http : HttpOutcome) (url : String)
    (uf : Bool) (tr : List Strategy) (fr : FetchResult)
    (hnp : np.success = true → 50 < pyLen (np.content.getD ""))
    (hrssm : rss.success = true → rss.method = some "rss_feed")
    (h : (httpPhase np rss http url uf tr).1 = some fr)
    (hs : fr.success = true)
    (hm1 : fr.method ≠ some "rss_feed")
    (hm2 : fr.method ≠ some "requests (partial extraction)") :
    50 ≤ pyLen (fr.content.getD "") := by
  cases http with
  | timeout =>
    simp only [httpPhase] at h
    injection h with h2
    rw [← h2] at hs
    exact absurd hs (by simp [errTimeout])
  | connError =>
    simp only [httpPhase] at h
    injection h with h2
    rw [← h2] at hs
    exact absurd hs (by simp [errConn])
  | exn m =>
    simp only [httpPhase] at h
    injection h with h2
    rw [← h2] at hs
    exact absurd hs (by simp [errGeneric])
  | ok r =>
    simp only [httpPhase] at h
    by_cases h1 : r.status = 401
    · rw [if_pos h1] at h
      by_cases huf : uf = true
      · rw [if_pos huf] at h
        split at h
        next res hres =>
          injection h with h2
          subst h2
          rcases authFallback_cases np rss _ hres with ⟨hfr, hsu⟩ | ⟨hfr, hsu⟩
          · subst hfr
            exact Nat.le_of_lt (hnp hsu)
          · subst hfr
            exact absurd (hrssm hsu) hm1
        next hres =>
          injection h with h2
          rw [← h2] at hs
          exact absurd hs (by simp [err401])
      · rw [if_neg huf] at h
        injection h with h2
        rw [← h2] at hs
        exact absurd hs (by simp [err401])
    · rw [if_neg h1] at h
      by_cases h3 : r.status = 403
      · rw [if_pos h3] at h
        by_cases huf : uf = true
        · rw [if_pos huf] at h
          split at h
          next res hres =>
            injection h with h2
            subst h2
            rcases authFallback_cases np rss _ hres with ⟨hfr, hsu⟩ | ⟨hfr, hsu⟩
            · subst hfr
              exact Nat.le_of_lt (hnp hsu)
            · subst hfr
              exact absurd (hrssm hsu) hm1
          next hres =>
            injection h with h2
            rw [← h2] at hs
            exact absurd hs (by simp [err403])
        · rw [if_neg huf] at h
          injection h with h2
          rw [← h2] at hs
          exact absurd hs (by simp [err403])
      · rw [if_neg h3] at h
        by_cases h4 : r.status = 404
        · rw [if_pos h4] at h
          injection h with h2
          rw [← h2] at hs
          exact absurd hs (by simp [err404])
        · rw [if_neg h4] at h
          by_cases h4xx : 400 ≤ r.status
          · rw [if_pos h4xx] at h
            injection h with h2
            rw [← h2] at hs
            exact absurd hs (by simp [errHttpStatus])
          · rw [if_neg h4xx] at h
            unfold contentPhase at h
            split at h
            · exact Nat.le_of_lt (shortContentPath_bound _ _ _ _ _ _ _ _ h hs hm2)
            · split at h
              · exact Nat.le_of_lt (shortContentPath_bound _ _ _ _ _ _ _ _ h hs hm2)
              · exact longContentPath_bound _ _ _ _ _ _ _ _ h

theorem pyLen_pos_ne_empty (s : String) (h : 50 ≤ pyLen s) : s ≠ "" := by
  intro he
  subst he
  simp [pyLen] at h

/-- Claim C1 (amended): when the strategies are the ones the code builds
(newspaper3k and RSS), every FetchResult returned by the fetch chain
with `success=true` whose method is neither the RSS strategy nor the
pre-cleanup partial-extraction path has non-empty content of length at
least 50.  The RSS strategy can return success with empty content
(its content is the feed entry's summary, unchecked on the 401/403
fallback path), and the partial-extraction path length-checks the
content before a cleanup that can shrink it below 50. -/
theorem claim_c1_theorem (available : Bool) (download : Option ArticleData)
    (feeds : String → List FeedEntry) (http : HttpOutcome) (url : String) (uf : Bool)
    (fr : FetchResult)
    (h : (fetch_article_content (fetch_with_newspaper3k available download url)
          (try_rss_feed feeds url) http url uf).1 = some fr)
    (hs : fr.success = true)
    (hm1 : fr.method ≠ some "rss_feed")
    (hm2 : fr.method ≠ some "requests (partial extraction)") :
    fr.content.getD "" ≠ "" ∧ 50 ≤ pyLen (fr.content.getD "") := by
  have hbound : 50 ≤ pyLen (fr.content.getD "") := by
    unfold fetch_article_content at h
    split at h
    next hcond =>
      injection h with h2
      subst h2
      exact Nat.le_of_lt (Nat.lt_of_le_of_lt (by norm_num) hcond.2.2)
    next =>
      exact httpPhase_bound _ _ http url uf _ fr
        (fetch_with_newspaper3k_success_len available download url)
        (try_rss_feed_success_method feeds url) h hs hm1 hm2
  refine ⟨?_, hbound⟩
  intro he
  rw [he] at hbound
  simp [pyLen] at hbound

/-- A feed oracle for the C1 counterexample: the conventional `/feed`
path of the article's site parses to one entry whose link is the
article itself but which carries no summary and no description. -/
def c1Feeds (u : String) : List FeedEntry :=
  if u = "http://news.example/feed" then [{ link := some "http://news.example/story1" }]
  else []

/-- Claim C1, counterexample: the RSS-feed strategy is a fetch strategy,
yet on a feed entry matching the requested URL whose summary and
description are both absent it returns `success=true` with `content`
equal to the empty string, violating the claimed invariant
`success=true implies len(content) >= 50`. -/
theorem claim_c1_counterexample :
    (try_rss_feed c1Feeds "http://news.example/story1").success = true ∧
    (try_rss_feed c1Feeds "http://news.example/story1").content = some "" := by
  constructor <;> decide

/-- A concrete 109-character single-line article body used by witnesses. -/
def longBody : String :=
  "abcdefghij abcdefghij abcdefghij abcdefghij abcdefghij abcdefghij abcdefghij abcdefghij abcdefghij abcdefghij"

/-- A concrete successful newspaper3k result used by witnesses. -/
def npWitness : FetchResult :=
  { success := true, title := some "Title", content := some longBody,
    url := some "http://news.example/story1", method := some "newspaper3k" }

/-- A concrete failed strategy result used by witnesses. -/
def failResult : FetchResult := { success := false }

/-- A concrete HTTP 403 response used by witnesses. -/
def http403 : HttpOk := { status := 403, title := "Title", extracted := none }

/-- A concrete HTTP 200 response with an extracted body, used by witnesses. -/
def httpOkBody : HttpOk := { status := 200, title := "Title", extracted := some longBody }

/-- Witness for claim C2 at concrete inputs. -/
theorem claim_c2_witness :
    fetch_article_content npWitness failResult HttpOutcome.timeout
      "http://news.example/story1" true = (some npWitness, [Strategy.newspaper3k]) :=
  claim_c2_theorem npWitness failResult HttpOutcome.timeout "http://news.example/story1"
    rfl (by decide)

/-- Witness for claim C4 at concrete inputs. -/
theorem claim_c4_witness :
    (fetch_article_content failResult failResult (HttpOutcome.ok http403)
        "http://news.example/story1" true).1 = some (err403 "http://news.example/story1") ∧
    (err403 "http://news.example/story1").success = false ∧
    pyIn "403" ((err403 "http://news.example/story1").error.getD "") = true ∧
    (fetch_article_content failResult failResult (HttpOutcome.ok http403)
        "http://news.example/story1" true).2 =
      [Strategy.newspaper3k, Strategy.direct_http, Strategy.newspaper3k, Strategy.rss_feed] :=
  claim_c4_theorem failResult failResult http403 "http://news.example/story1" rfl rfl rfl

/-- Witness for claim C1 at concrete inputs: a full direct-HTTP
extraction, whose result has non-empty content of length at least 50. -/
theorem claim_c1_witness :
    (requestsResult "Title" (cleanup_content longBody)
        "http://news.example/story1").content.getD "" ≠ "" ∧
    50 ≤ pyLen ((requestsResult "Title" (cleanup_content longBody)
        "http://news.example/story1").content.getD "") :=
  claim_c1_theorem false none c1Feeds (HttpOutcome.ok httpOkBody)
    "http://news.example/story1" false
    (requestsResult "Title" (cleanup_content longBody) "http://news.example/story1")
    (by decide) rfl (by decide) (by decide)

/-- One related-article candidate, as built by `find_related_articles`
(page-link candidates carry no `published` key). -/
structure Candidate where
  url : String
  title : String
  summary : String
  relevance_score : Nat
  published : Option String
  source : String
deriving DecidableEq

/-- The fixed always-relevant topic list of `find_related_articles`. -/
def common_topics : List String :=
  ["india", "modi", "putin", "russia", "diplomatic", "visit", "policy"]

/-- The lowercased `title + " " + summary` text of a feed entry used for
keyword matching. -/
def entryText (e : FeedEntry) : String :=
  pyLower (e.title.getD "") ++ " " ++ pyLower (pyOr (e.summary.getD "") (e.description.getD ""))

/-- The relevance score of a feed entry: +1 per keyword found in the
entry text, +2 per always-relevant topic found in both the entry text
and the current article's lowercased content. -/
def scoreEntry (kws : List String) (contentL : String) (e : FeedEntry) : Nat :=
  (kws.filter (fun k => pyIn k (entryText e))).length +
    2 * (common_topics.filter (fun t => pyIn t (entryText e) && pyIn t contentL)).length

/-- The candidate built from an accepted feed entry. -/
def rssCand (e : FeedEntry) (score : Nat) : Candidate :=
  { url := e.link.getD "", title := e.title.getD "No title",
    summary := pyOr (e.summary.getD "") (e.description.getD ""),
    relevance_score := score, published := some (e.published.getD ""),
    source := "rss_feed" }

/-- The entry loop of the RSS source: skip the current article (equal
link or link containing the URL), accept entries scoring at least 2,
stop once `maxA` candidates are collected. -/
def scanEntries (kws : List String) (contentL url : String) (maxA : Nat) :
    List FeedEntry → List Candidate → List Candidate
  | [], acc => acc
  | e :: es, acc =>
    if e.link.getD "" = url ∨ pyIn url (e.link.getD "") = true then
      scanEntries kws contentL url maxA es acc
    else if 2 ≤ scoreEntry kws contentL e then
      if maxA ≤ (acc ++ [rssCand e (scoreEntry kws contentL e)]).length then
        acc ++ [rssCand e (scoreEntry kws contentL e)]
      else scanEntries kws contentL url maxA es (acc ++ [rssCand e (scoreEntry kws contentL e)])
    else scanEntries kws contentL url maxA es acc

/-- One probed feed path: a feed with no entries contributes nothing;
otherwise its first 20 entries are scanned. -/
def scanPathStep (feeds : String → List FeedEntry) (kws : List String)
    (contentL base url : String) (maxA : Nat) (p : String) (acc : List Candidate) :
    List Candidate :=
  if (feeds (base ++ p)).isEmpty = true then acc
  else scanEntries kws contentL url maxA ((feeds (base ++ p)).take 20) acc

/-- The path loop of the RSS source, stopping once `maxA` candidates are
collected. -/
def scanPaths (feeds : String → List FeedEntry) (kws : List String)
    (contentL base url : String) (maxA : Nat) :
    List String → List Candidate → List Candidate
  | [], acc => acc
  | p :: ps, acc =>
    if maxA ≤ (scanPathStep feeds kws contentL base url maxA p acc).length then
      scanPathStep feeds kws contentL base url maxA p acc
    else scanPaths feeds kws contentL base url maxA ps
      (scanPathStep feeds kws contentL base url maxA p acc)

/-- One anchor found by a related-links selector: its `href` attribute
and its stripped text. -/
structure PageLink where
  href : String
  text : String
deriving DecidableEq

/-- The fetched article page: HTTP status and, per selector, the
anchors `soup.select` finds. -/
structure PageFetch where
  status : Nat
  links : String → List PageLink

/-- The fixed related-article selector patterns of the code. -/
def related_selectors : List String :=
  ["a[href*=\"related\"]", ".related-articles a", ".more-articles a",
   ".similar-articles a", "[class*=\"related\"] a", "[class*=\"similar\"] a"]

/-- Modelled from `urllib.parse.urljoin` for a base of the form
`scheme://netloc` with no path: absolute-path and relative references. -/
def urljoinBase (base href : String) : String :=
  if pyStartsWith href "/" = true then base ++ href else base ++ "/" ++ href

/-- The code's `if not href.startswith('http'): href = urljoin(...)`. -/
def resolveHref (base href : String) : String :=
  if pyStartsWith href "http" = true then href else urljoinBase base href

/-- The candidate built from an accepted in-page link. -/
def pageCand (href text : String) (rel : Nat) : Candidate :=
  { url := href, title := text, summary := "", relevance_score := rel,
    published := none, source := "page_links" }

/-- The relevance of an anchor: the number of keywords contained in its
lowercased text. -/
def linkScore (kws : List String) (text : String) : Nat :=
  (kws.filter (fun k => pyIn k (pyLower text))).length

/-- The link loop of the page-links source: skip empty hrefs, resolve
relative URLs, require a different URL on the same origin, a title
longer than 10 characters, and at least one keyword match. -/
def scanLinks (kws : List String) (base url : String) (maxA : Nat) :
    List PageLink → List Candidate → List Candidate
  | [], acc => acc
  | l :: ls, acc =>
    if l.href = "" then scanLinks kws base url maxA ls acc
    else if resolveHref base l.href ≠ url ∧ pyIn base (resolveHref base l.href) = true then
      if l.text ≠ "" ∧ 10 < pyLen l.text then
        if 1 ≤ linkScore kws l.text then
          if maxA ≤ (acc ++ [pageCand (resolveHref base l.href) l.text (linkScore kws l.text)]).length then
            acc ++ [pageCand (resolveHref base l.href) l.text (linkScore kws l.text)]
          else scanLinks kws base url maxA ls
            (acc ++ [pageCand (resolveHref base l.href) l.text (linkScore kws l.text)])
        else scanLinks kws base url maxA ls acc
      else scanLinks kws base url maxA ls acc
    else scanLinks kws base url maxA ls acc

/-- The selector loop of the page-links source (first 10 anchors per
selector, stop once `maxA` candidates are collected). -/
def scanSelectors (pf : PageFetch) (kws : List String) (base url : String) (maxA : Nat) :
    List String → List Candidate → List Candidate
  | [], acc => acc
  | s :: ss, acc =>
    if maxA ≤ (scanLinks kws base url maxA ((pf.links s).take 10) acc).length then
      scanLinks kws base url maxA ((pf.links s).take 10) acc
    else scanSelectors pf kws base url maxA ss
      (scanLinks kws base url maxA ((pf.links s).take 10) acc)

/-- Python's stable descending sort by `relevance_score`
(`list.sort(key=..., reverse=True)`): insertion before the first element
of smaller-or-equal score, preserving discovery order on ties. -/
def insertDesc (c : Candidate) : List Candidate → List Candidate
  | [] => [c]
  | d :: ds =>
    if d.relevance_score ≤ c.relevance_score then c :: d :: ds
    else d :: insertDesc c ds

/-- Stable descending sort of candidates by relevance score. -/
def sortDesc : List Candidate → List Candidate
  | [] => []
  | c :: cs => insertDesc c (sortDesc cs)

/-- `find_related_articles` (news_analyzer.py, lines 277-398), with the
RSS feeds and the article page given as oracles.  Python's keyword set
union is modelled as an order-preserving deduplicated union; the claims
settled here depend only on keyword membership. -/
def find_related_articles (feeds : String → List FeedEntry) (page : Option PageFetch)
    (url current_title current_content : String) (max_articles : Nat) : List Candidate :=
  let base := baseUrl url
  let title_words := pySet (wordTokens 4 (pyLower current_title))
  let content_words := pySet (wordTokens 5 (pySliceStr (pyLower current_content) 500))
  let keywords := (title_words ++ content_words.filter
    (fun w => !(title_words.contains w))).take 10
  let contentL := pyLower current_content
  let rssAcc := scanPaths feeds keywords contentL base url max_articles rss_paths []
  let allAcc :=
    match page with
    | some pf =>
      if pf.status = 200 then
        scanSelectors pf keywords base url max_articles related_selectors rssAcc
      else rssAcc
    | none => rssAcc
  (sortDesc allAcc).take max_articles

theorem leads_self (l : List Char) : leads l l = true := by
  induction l with
  | nil => rfl
  | cons a as ih => simp [leads, ih]

theorem pyIn_self (s : String) : pyIn s s = true := by
  unfold pyIn
  cases hl : s.data with
  | nil => rfl
  | cons h t =>
    unfold listHas
    rw [leads_self]
    rfl

theorem mem_insertDesc (c x : Candidate) (l : List Candidate) :
    x ∈ insertDesc c l ↔ x = c ∨ x ∈ l := by
  induction l with
  | nil => simp [insertDesc]
  | cons d ds ih =>
    unfold insertDesc
    split
    · simp [List.mem_cons]
    · simp only [List.mem_cons, ih]
      tauto

theorem mem_sortDesc (x : Candidate) (l : List Candidate) :
    x ∈ sortDesc l ↔ x ∈ l := by
  induction l with
  | nil => simp [sortDesc]
  | cons c cs ih => simp [sortDesc, mem_insertDesc, ih]

theorem scanEntries_mem (kws : List String) (contentL url : String) (maxA : Nat)
    (es : List FeedEntry) (acc : List Candidate) (c : Candidate)
    (hc : c ∈ scanEntries kws contentL url maxA es acc) :
    c ∈ acc ∨ (c.source = "rss_feed" ∧ 2 ≤ c.relevance_score ∧ pyIn url c.url = false) := by
  induction es generalizing acc with
  | nil => exact Or.inl hc
  | cons e es ih =>
    unfold scanEntries at hc
    split at hc
    · exact ih _ hc
    next hskip =>
      have hskip2 : pyIn url (e.link.getD "") = false := by
        push_neg at hskip
        simpa using hskip.2
      split at hc
      next hsc =>
        split at hc
        · rcases List.mem_append.mp hc with h1 | h1
          · exact Or.inl h1
          · have hcc : c = rssCand e (scoreEntry kws contentL e) := by simpa using h1
            subst hcc
            exact Or.inr ⟨rfl, hsc, by simpa [rssCand] using hskip2⟩
        · rcases ih _ hc with h1 | h1
          · rcases List.mem_append.mp h1 with h2 | h2
            · exact Or.inl h2
            · have hcc : c = rssCand e (scoreEntry kws contentL e) := by simpa using h2
              subst hcc
              exact Or.inr ⟨rfl, hsc, by simpa [rssCand] using hskip2⟩
          · exact Or.inr h1
      · exact ih _ hc

theorem scanPathStep_mem (feeds : String → List FeedEntry) (kws : List String)
    (contentL base url : String) (maxA : Nat) (p : String) (acc : List Candidate)
    (c : Candidate) (hc : c ∈ scanPathStep feeds kws contentL base url maxA p acc) :
    c ∈ acc ∨ (c.source = "rss_feed" ∧ 2 ≤ c.relevance_score ∧ pyIn url c.url = false) := by
  unfold scanPathStep at hc
  split at hc
  · exact Or.inl hc
  · exact scanEntries_mem _ _ _ _ _ _ _ hc

theorem scanPaths_mem (feeds : String → List FeedEntry) (kws : List String)
    (contentL base url : String) (maxA : Nat) (ps : List String) (acc : List Candidate)
    (c : Candidate) (hc : c ∈ scanPaths feeds kws contentL base url maxA ps acc) :
    c ∈ acc ∨ (c.source = "rss_feed" ∧ 2 ≤ c.relevance_score ∧ pyIn url c.url = false) := by
  induction ps generalizing acc with
  | nil => exact Or.inl hc
  | cons p ps ih =>
    unfold scanPaths at hc
    split at hc
    · exact scanPathStep_mem _ _ _ _ _ _ _ _ _ hc
    · rcases ih _ hc with h | h
      · exact scanPathStep_mem _ _ _ _ _ _ _ _ _ h
      · exact Or.inr h

theorem scanLinks_mem (kws : List String) (base url : String) (maxA : Nat)
    (ls : List PageLink) (acc : List Candidate) (c : Candidate)
    (hc : c ∈ scanLinks kws base url maxA ls acc) :
    c ∈ acc ∨ (c.source = "page_links" ∧ 1 ≤ c.relevance_score ∧ c.url ≠ url) := by
  induction ls generalizing acc with
  | nil => exact Or.inl hc
  | cons l ls ih =>
    unfold scanLinks at hc
    split at hc
    · exact ih _ hc
    · split at hc
      next hok =>
        split at hc
        · split at hc
          next hsc =>
            split at hc
            · rcases List.mem_append.mp hc with h1 | h1
              · exact Or.inl h1
              · have hcc : c = pageCand (resolveHref base l.href) l.text (linkScore kws l.text) := by
                  simpa using h1
                subst hcc
                exact Or.inr ⟨rfl, hsc, hok.1⟩
            · rcases ih _ hc with h1 | h1
              · rcases List.mem_append.mp h1 with h2 | h2
                · exact Or.inl h2
                · have hcc : c = pageCand (resolveHref base l.href) l.text (linkScore kws l.text) := by
                    simpa using h2
                  subst hcc
                  exact Or.inr ⟨rfl, hsc, hok.1⟩
              · exact Or.inr h1
          · exact ih _ hc
        · exact ih _ hc
      · exact ih _ hc

theorem scanSelectors_mem (pf : PageFetch) (kws : List String) (base url : String)
    (maxA : Nat) (ss : List String) (acc : List Candidate) (c : Candidate)
    (hc : c ∈ scanSelectors pf kws base url maxA ss acc) :
    c ∈ acc ∨ (c.source = "page_links" ∧ 1 ≤ c.relevance_score ∧ c.url ≠ url) := by
  induction ss generalizing acc with
  | nil => exact Or.inl hc
  | cons s ss ih =>
    unfold scanSelectors at hc
    split at hc
    · exact scanLinks_mem _ _ _ _ _ _ _ hc
    · rcases ih _ hc with h | h
      · exact scanLinks_mem _ _ _ _ _ _ _ h
      · exact Or.inr h

theorem find_related_mem_cases (feeds : String → List FeedEntry) (page : Option PageFetch)
    (url t content : String) (maxA : Nat) (c : Candidate)
    (hc : c ∈ find_related_articles feeds page url t content maxA) :
    (c.source = "rss_feed" ∧ 2 ≤ c.relevance_score ∧ pyIn url c.url = false) ∨
    (c.source = "page_links" ∧ 1 ≤ c.relevance_score ∧ c.url ≠ url) := by
  cases page with
  | none =>
    simp only [find_related_articles] at hc
    have h2 := (mem_sortDesc _ _).mp (List.take_subset _ _ hc)
    rcases scanPaths_mem _ _ _ _ _ _ _ _ _ h2 with h | h
    · simp at h
    · exact Or.inl h
  | some pf =>
    simp only [find_related_articles] at hc
    have h2 := (mem_sortDesc _ _).mp (List.take_subset _ _ hc)
    by_cases hst : pf.status = 200
    · rw [if_pos hst] at h2
      rcases scanSelectors_mem _ _ _ _ _ _ _ _ h2 with h | h
      · rcases scanPaths_mem _ _ _ _ _ _ _ _ _ h with h3 | h3
        · simp at h3
        · exact Or.inl h3
      · exact Or.inr h
    · rw [if_neg hst] at h2
      rcases scanPaths_mem _ _ _ _ _ _ _ _ _ h2 with h | h
      · simp at h
      · exact Or.inl h

/-- A feed oracle with no entries at any path, used by counterexamples. -/
def emptyFeeds : String → List FeedEntry := fun _ => []

/-- A page whose first related-links selector yields one same-origin
anchor matching exactly one keyword of the current article. -/
def c3Page : PageFetch :=
  { status := 200,
    links := fun s =>
      if s = "a[href*=\"related\"]" then
        [{ href := "http://news.example/other", text := "alpha related piece" }]
      else [] }

/-- Claim C3, counterexample: with no RSS candidates and one in-page
link whose anchor text matches a single keyword, `find_related_articles`
returns a page-links candidate with `relevance_score = 1`; the claimed
floor of 2 does not hold for the page-links source (the code only
requires a score of at least 1 there). -/
theorem claim_c3_counterexample :
    ¬ (∀ c ∈ find_related_articles emptyFeeds (some c3Page)
        "http://news.example/story1" "alpha beta" "" 5, 2 ≤ c.relevance_score) := by
  decide

/-- Claim C3 (amended): every candidate returned by
`find_related_articles` has `relevance_score ≥ 1`, and candidates from
the RSS source additionally satisfy the claimed floor
`relevance_score ≥ 2`; page-links candidates only need a score of 1. -/
theorem claim_c3_theorem (feeds : String → List FeedEntry) (page : Option PageFetch)
    (url t content : String) (maxA : Nat) (c : Candidate)
    (hc : c ∈ find_related_articles feeds page url t content maxA) :
    1 ≤ c.relevance_score ∧ (c.source = "rss_feed" → 2 ≤ c.relevance_score) := by
  rcases find_related_mem_cases feeds page url t content maxA c hc with
    ⟨_, h2, _⟩ | ⟨hs, h1, _⟩
  · exact ⟨Nat.le_of_succ_le h2, fun _ => h2⟩
  · refine ⟨h1, fun hr => ?_⟩
    rw [hs] at hr
    exact absurd hr (by decide)

/-- The concrete page-links candidate produced in the C3 scenario. -/
def c3Cand : Candidate := pageCand "http://news.example/other" "alpha related piece" 1

/-- Witness for claim C3 at concrete inputs. -/
theorem claim_c3_witness :
    1 ≤ c3Cand.relevance_score ∧ (c3Cand.source = "rss_feed" → 2 ≤ c3Cand.relevance_score) :=
  claim_c3_theorem emptyFeeds (some c3Page) "http://news.example/story1" "alpha beta" "" 5
    c3Cand (by decide)

/-- A page whose first related-links selector yields an anchor whose
href is the current article plus a tracking parameter. -/
def c6Page : PageFetch :=
  { status := 200,
    links := fun s =>
      if s = "a[href*=\"related\"]" then
        [{ href := "http://news.example/story1?utm=1", text := "alpha repeated story" }]
      else [] }

/-- Claim C6, counterexample: the page-links source only filters exact
URL equality, so an anchor pointing at the current article with a
tracking parameter appended is returned even though the input URL is a
substring of its URL — the claimed alias filtering does not hold for
the page-links source. -/
theorem claim_c6_counterexample :
    ¬ (∀ c ∈ find_related_articles emptyFeeds (some c6Page)
        "http://news.example/story1" "alpha beta" "" 5,
        pyIn "http://news.example/story1" c.url = false) := by
  decide

/-- Claim C6 (amended): no candidate returned by
`find_related_articles` has a URL equal to the input URL, and RSS
candidates additionally never contain the input URL as a substring;
page-links candidates are filtered only by exact equality, so
substring aliases can appear from that source. -/
theorem claim_c6_theorem (feeds : String → List FeedEntry) (page : Option PageFetch)
    (url t content : String) (maxA : Nat) (c : Candidate)
    (hc : c ∈ find_related_articles feeds page url t content maxA) :
    c.url ≠ url ∧ (c.source = "rss_feed" → pyIn url c.url = false) := by
  rcases find_related_mem_cases feeds page url t content maxA c hc with
    ⟨_, _, hpy⟩ | ⟨hs, _, hne⟩
  · refine ⟨?_, fun _ => hpy⟩
    intro he
    rw [he, pyIn_self] at hpy
    exact absurd hpy (by decide)
  · refine ⟨hne, fun hr => ?_⟩
    rw [hs] at hr
    exact absurd hr (by decide)

/-- The concrete aliased candidate produced in the C6 scenario. -/
def c6Cand : Candidate := pageCand "http://news.example/story1?utm=1" "alpha repeated story" 1

/-- Witness for claim C6 at concrete inputs. -/
theorem claim_c6_witness :
    c6Cand.url ≠ "http://news.example/story1" ∧
    (c6Cand.source = "rss_feed" → pyIn "http://news.example/story1" c6Cand.url = false) :=
  claim_c6_theorem emptyFeeds (some c6Page) "http://news.example/story1" "alpha beta" "" 5
    c6Cand (by decide)

/-- The current article as consumed by the comparator
(`current_article.get('title','')` and `.get('content','')`). -/
structure CurrentArticle where
  title : String
  content : String
deriving DecidableEq

/-- The nested per-candidate comparison record; the sentence-delta key
is only present when the best-effort fetch succeeded. -/
structure Comparison where
  common_topics : List String
  topics_in_related_not_in_current : List String
  topics_in_current_not_in_related : List String
  information_in_related_not_in_current : Option (List String)
deriving DecidableEq

/-- The per-candidate analysis record built by
`analyze_related_articles`. -/
structure ArticleAnalysis where
  url : String
  title : String
  relevance_score : Nat
  summary : String
  comparison : Comparison
  full_content_available : Bool
  content_length : Option Nat
deriving DecidableEq

/-- The comparator's overall result; the `total_found` and `articles`
keys are absent (`none`) in the empty-candidates case, and `message`
is absent in the non-empty case. -/
structure RelatedAnalysis where
  related_articles_found : Bool
  message : Option String
  total_found : Option Nat
  articles : Option (List ArticleAnalysis)
deriving DecidableEq

/-- The fixed substantive-keyword list of the sentence delta. -/
def substantive_keywords : List String :=
  ["policy", "security", "impact", "citizen", "government", "cost", "benefit"]

/-- Sentence-like chunks: split on periods, strip, keep chunks longer
than 50 characters. -/
def pySentences (s : String) : List String :=
  ((pySplitChar '.' s).map pyStrip).filter (fun t => decide (50 < pyLen t))

/-- The unique-information loop: flag candidate sentences whose
50-character head matches no current sentence and which contain a
substantive keyword; record their 150-character heads, at most 3. -/
def uniqueInfoAux (currSents : List String) : List String → List String → List String
  | [], acc => acc
  | s :: ss, acc =>
    if currSents.any (fun cs => pyIn (pySliceStr s 50) cs) then
      uniqueInfoAux currSents ss acc
    else if substantive_keywords.any (fun k => pyIn k s) then
      if 3 ≤ (acc ++ [pySliceStr s 150]).length then acc ++ [pySliceStr s 150]
      else uniqueInfoAux currSents ss (acc ++ [pySliceStr s 150])
    else uniqueInfoAux currSents ss acc

/-- A topic set: word tokens of length at least 5, deduplicated. -/
def topicsOf (s : String) : List String := pySet (wordTokens 5 s)

/-- The code's `article.get('summary','')[:200] if article.get('summary')
else ""`. -/
def truncSummary (s : String) : String := if s ≠ "" then pySliceStr s 200 else ""

/-- The best-effort full-fetch part of the per-candidate analysis:
whether full content was available, its length, and the sentence-level
delta (`none` when the fetch failed or raised). -/
def fetchDelta (currentContentL : String) (r : Option FetchResult) :
    Bool × Option Nat × Option (List String) :=
  match r with
  | some f =>
    if f.success = true then
      (true, some (pyLen (f.content.getD "")),
        some (uniqueInfoAux (pySentences currentContentL)
          ((pySentences (pyLower (f.content.getD ""))).take 20) []))
    else (false, none, none)
  | none => (false, none, none)

/-- The per-candidate body of `analyze_related_articles`
(news_analyzer.py, lines 417-472): topic-set comparison over the first
1000 characters, best-effort full fetch via `fetchc` (direct strategy
only; `none` models a raised exception or a `None` return) and the
sentence-level delta on success.  Python set intersections and
differences are modelled as order-preserving filtered lists. -/
def analyzeOne (currentContentL : String) (fetchc : String → Option FetchResult)
    (a : Candidate) : ArticleAnalysis :=
  { url := a.url, title := a.title, relevance_score := a.relevance_score,
    summary := truncSummary a.summary,
    comparison :=
      { common_topics := ((topicsOf (pySliceStr currentContentL 1000)).filter
          (fun t => (topicsOf (pySliceStr (pyLower a.summary) 1000)).contains t)).take 5,
        topics_in_related_not_in_current := ((topicsOf (pySliceStr (pyLower a.summary) 1000)).filter
          (fun t => !((topicsOf (pySliceStr currentContentL 1000)).contains t))).take 5,
        topics_in_current_not_in_related := ((topicsOf (pySliceStr currentContentL 1000)).filter
          (fun t => !((topicsOf (pySliceStr (pyLower a.summary) 1000)).contains t))).take 5,
        information_in_related_not_in_current := (fetchDelta currentContentL (fetchc a.url)).2.2 },
    full_content_available := (fetchDelta currentContentL (fetchc a.url)).1,
    content_length := (fetchDelta currentContentL (fetchc a.url)).2.1 }

/-- `analyze_related_articles` (news_analyzer.py, lines 400-475). -/
def analyze_related_articles (fetchc : String → Option FetchResult)
    (current : CurrentArticle) (related : List Candidate) : RelatedAnalysis :=
  if related = [] then
    { related_articles_found := false,
      message := some "No related articles found on the same website",
      total_found := none, articles := none }
  else
    { related_articles_found := true, message := none,
      total_found := some related.length,
      articles := some (related.map (analyzeOne (pyLower current.content) fetchc)) }

theorem uniqueInfoAux_len (currSents : List String) (ss : List String) (acc : List String)
    (hacc : acc.length ≤ 2) : (uniqueInfoAux currSents ss acc).length ≤ 3 := by
  induction ss generalizing acc with
  | nil =>
    unfold uniqueInfoAux
    omega
  | cons s ss ih =>
    unfold uniqueInfoAux
    split
    · exact ih _ hacc
    · split
      · split
        · simp only [List.length_append, List.length_cons, List.length_nil]
          omega
        next h3 =>
          refine ih _ ?_
          simp only [List.length_append, List.length_cons, List.length_nil] at h3 ⊢
          omega
      · exact ih _ hacc

theorem fetchDelta_info_len (cL : String) (r : Option FetchResult) :
    ((fetchDelta cL r).2.2.getD []).length ≤ 3 := by
  unfold fetchDelta
  rcases r with _ | f
  · exact Nat.zero_le 3
  · show ((if f.success = true then
        ((true : Bool), some (pyLen (f.content.getD "")),
          some (uniqueInfoAux (pySentences cL)
            ((pySentences (pyLower (f.content.getD ""))).take 20) []))
      else ((false : Bool), none, none)).2.2.getD []).length ≤ 3
    cases hsc : f.success with
    | false => exact Nat.zero_le 3
    | true => exact uniqueInfoAux_len _ _ [] (by decide)

theorem analyzeOne_bounds (cL : String) (fetchc : String → Option FetchResult) (a : Candidate) :
    (analyzeOne cL fetchc a).comparison.common_topics.length ≤ 5 ∧
    (analyzeOne cL fetchc a).comparison.topics_in_related_not_in_current.length ≤ 5 ∧
    (analyzeOne cL fetchc a).comparison.topics_in_current_not_in_related.length ≤ 5 ∧
    ((analyzeOne cL fetchc a).comparison.information_in_related_not_in_current.getD []).length ≤ 3 :=
  ⟨List.length_take_le .., List.length_take_le .., List.length_take_le ..,
    fetchDelta_info_len cL (fetchc a.url)⟩

/-- Claim C7: every per-candidate comparison produced by the comparator
has at most 5 entries in each of the three topic lists and at most 3
entries in the unique-sentence list. -/
theorem claim_c7_theorem (fetchc : String → Option FetchResult) (current : CurrentArticle)
    (related : List Candidate) (e : ArticleAnalysis)
    (he : e ∈ (analyze_related_articles fetchc current related).articles.getD []) :
    e.comparison.common_topics.length ≤ 5 ∧
    e.comparison.topics_in_related_not_in_current.length ≤ 5 ∧
    e.comparison.topics_in_current_not_in_related.length ≤ 5 ∧
    (e.comparison.information_in_related_not_in_current.getD []).length ≤ 3 := by
  unfold analyze_related_articles at he
  split at he
  · simp at he
  · simp only [Option.getD_some] at he
    obtain ⟨a, _, rfl⟩ := List.mem_map.mp he
    exact analyzeOne_bounds _ fetchc a

/-- Claim C8: called with an empty candidate list the comparator returns
`related_articles_found=false` together with a human-readable `message`
field and no `articles`/`total_found` keys, instead of an empty array
or an exception. -/
theorem claim_c8_theorem (fetchc : String → Option FetchResult) (current : CurrentArticle) :
    analyze_related_articles fetchc current [] =
      { related_articles_found := false,
        message := some "No related articles found on the same website",
        total_found := none, articles := none } := by
  simp [analyze_related_articles]

theorem analyzeOne_proj (cL : String) (fetchc : String → Option FetchResult) (a : Candidate) :
    (analyzeOne cL fetchc a).url = a.url ∧ (analyzeOne cL fetchc a).title = a.title ∧
    (analyzeOne cL fetchc a).relevance_score = a.relevance_score ∧
    (analyzeOne cL fetchc a).summary = pySliceStr a.summary 200 := by
  have hsum : truncSummary a.summary = pySliceStr a.summary 200 := by
    unfold truncSummary
    split
    · rfl
    next h =>
      simp only [ne_eq, not_not] at h
      rw [h]
      rfl
  exact ⟨rfl, rfl, rfl, hsum⟩

/-- Claim C10: for a non-empty candidate list the comparator reports
`total_found` equal to the number of candidates, and its articles list
has exactly one entry per input candidate in the same order, each
carrying the candidate's url, title and relevance score unchanged and
its summary truncated to at most 200 characters. -/
theorem claim_c10_theorem (fetchc : String → Option FetchResult) (current : CurrentArticle)
    (related : List Candidate) (hne : related ≠ []) :
    (analyze_related_articles fetchc current related).total_found = some related.length ∧
    ((analyze_related_articles fetchc current related).articles.getD []).map
        (fun e => (e.url, e.title, e.relevance_score, e.summary)) =
      related.map (fun a => (a.url, a.title, a.relevance_score, pySliceStr a.summary 200)) := by
  unfold analyze_related_articles
  rw [if_neg hne]
  refine ⟨rfl, ?_⟩
  simp only [Option.getD_some, List.map_map]
  refine List.map_congr_left ?_
  intro a _
  obtain ⟨h1, h2, h3, h4⟩ := analyzeOne_proj (pyLower current.content) fetchc a
  simp [Function.comp, h1, h2, h3, h4]

/-- A fetch oracle whose best-effort fetches all fail, used by witnesses. -/
def noFetch : String → Option FetchResult := fun _ => none

/-- A concrete current article used by witnesses. -/
def currentWitness : CurrentArticle :=
  { title := "current title", content := "the current article talks about policy matters." }

/-- The concrete per-candidate entry produced in the C7 witness scenario. -/
def c7Entry : ArticleAnalysis := analyzeOne (pyLower currentWitness.content) noFetch c3Cand

/-- Witness for claim C7 at concrete inputs. -/
theorem claim_c7_witness :
    c7Entry.comparison.common_topics.length ≤ 5 ∧
    c7Entry.comparison.topics_in_related_not_in_current.length ≤ 5 ∧
    c7Entry.comparison.topics_in_current_not_in_related.length ≤ 5 ∧
    (c7Entry.comparison.information_in_related_not_in_current.getD []).length ≤ 3 :=
  claim_c7_theorem noFetch currentWitness [c3Cand] c7Entry (by decide)

/-- Witness for claim C10 at concrete inputs. -/
theorem claim_c10_witness :
    (analyze_related_articles noFetch currentWitness [c6Cand]).total_found =
      some ([c6Cand].length) ∧
    ((analyze_related_articles noFetch currentWitness [c6Cand]).articles.getD []).map
        (fun e => (e.url, e.title, e.relevance_score, e.summary)) =
      [c6Cand].map (fun a => (a.url, a.title, a.relevance_score, pySliceStr a.summary 200)) :=
  claim_c10_theorem noFetch currentWitness [c6Cand] (by decide)
